import Mathlib

/-!
Shallow embedding of the lptask cooperative task scheduler
(src/src/scheduler/scheduler.c and sched_types.h).

Machine integers are modelled as `Nat` with explicit reduction modulo
`2^32` (uint32_t) or `2^8` (uint8_t) exactly where the C code can wrap.
Pointers are modelled as addresses (`Nat`) into a task memory
`mem : Nat → sched_task_t`; a nullable pointer is `Option Nat`.
The scheduler singleton's fields and the task memory are threaded
explicitly through each function that the C code lets mutate them.
-/

namespace LPTask

/-- `2^32`, the modulus of uint32_t arithmetic. -/
def M32 : Nat := 2 ^ 32

/-- `2^8`, the modulus of uint8_t arithmetic. -/
def M8 : Nat := 2 ^ 8

/-- `SCHED_MS_MAX`: default value `UINT32_MAX` (scheduler.c line 35). -/
def SCHED_MS_MAX : Nat := M32 - 1

/-- Wrapping uint32 subtraction `a - b`, as the C expression
`(uint32_t)(a - b)` computes it for operands already reduced mod 2^32. -/
def wsub (a b : Nat) : Nat := (a % M32 + (M32 - b % M32)) % M32

/-- Task states (sched_types.h `sched_task_state_t`). -/
inductive sched_task_state_t where
  | UNINIT
  | STOPPED
  | ACTIVE
  | EXECUTING
  | STOPPING
deriving DecidableEq, Repr

/-- Scheduler states (scheduler.c `sched_state_t`). -/
inductive sched_state_t where
  | SCHED_STATE_STOPPED
  | SCHED_STATE_ACTIVE
  | SCHED_STATE_STOPPING
deriving DecidableEq, Repr

open sched_task_state_t sched_state_t

/-- A task control block (sched_types.h `sched_task_t`).
`p_next`, `p_handler` and `p_data` are nullable pointers; `p_data`
when non-null holds a raw byte
address.  The C field `repeat` is a reserved word in Lean and is named
`rep` here. -/
structure sched_task_t where
  start_ms : Nat
  interval_ms : Nat
  p_next : Option Nat
  p_handler : Option Nat
  p_data : Option Nat
  buff_size : Nat
  data_size : Nat
  rep : Bool
  allocated : Bool
  state : sched_task_state_t
deriving DecidableEq, Repr

/-- The scheduler module's internal data (scheduler.c `scheduler_t`),
with the cache enabled (`SCHED_TASK_CACHE_EN != 0`, the default). -/
structure scheduler_t where
  p_head : Option Nat
  p_tail : Option Nat
  updated : Bool
  state : sched_state_t
deriving DecidableEq, Repr

/-- The mutable world the scheduler functions act on: the scheduler
singleton plus the task memory. -/
structure World where
  scheduler : scheduler_t
  mem : Nat → sched_task_t

/-- Store a task record at an address of the task memory. -/
def setTask (mem : Nat → sched_task_t) (a : Nat) (t : sched_task_t) :
    Nat → sched_task_t :=
  fun x => if x = a then t else mem x

/-- Macro `TASK_ACTIVE` (scheduler.c line 165): the task state is
ACTIVE or EXECUTING. -/
def TASK_ACTIVE (t : sched_task_t) : Bool :=
  decide (t.state = ACTIVE) || decide (t.state = EXECUTING)

/-- `task_interval_set` (scheduler.c lines 209-236), with the default
`SCHED_MS_MAX = UINT32_MAX` so the clamping branch compiles out. -/
def task_interval_set (t : sched_task_t) (interval_ms : Nat) : sched_task_t :=
  if t.rep = true ∧ interval_ms = 0 then
    { t with interval_ms := 1 }
  else
    { t with interval_ms := interval_ms }

/-- `sched_task_expired` (scheduler.c lines 293-304).  `now` is the
value read from `sched_port_ms()`. -/
def sched_task_expired (now : Nat) : Option sched_task_t → Bool
  | none => false
  | some t =>
    if TASK_ACTIVE t then decide (wsub now t.start_ms ≥ t.interval_ms)
    else false

/-- `sched_task_remaining_ms` (scheduler.c lines 306-327). -/
def sched_task_remaining_ms (now : Nat) : Option sched_task_t → Nat
  | none => SCHED_MS_MAX
  | some t =>
    if TASK_ACTIVE t then
      let elapsed_ms := wsub now t.start_ms
      if elapsed_ms < t.interval_ms then t.interval_ms - elapsed_ms
      else 0
    else SCHED_MS_MAX

/-- `sched_task_elapsed_ms` (scheduler.c lines 329-340). -/
def sched_task_elapsed_ms (now : Nat) : Option sched_task_t → Nat
  | none => 0
  | some t =>
    if TASK_ACTIVE t then wsub now t.start_ms
    else 0

/-- `sched_updated_set` (scheduler.c lines 403-408): atomically raise
the scheduler's updated flag. -/
def sched_updated_set (s : scheduler_t) : scheduler_t :=
  { s with updated := true }

/-- The queue-attach step of `sched_task_config` for an UNINIT task
(scheduler.c lines 655-684): `p_task->p_next = NULL`, then under the
lock either `scheduler.p_head = p_task` (empty list) or
`scheduler.p_tail->p_next = p_task`, and finally
`scheduler.p_tail = p_task`.  When the list is non-empty but
`p_tail` is NULL the C code fails an assertion; no write happens. -/
def sched_que_attach (w : World) (a : Nat) : World :=
  let m1 := setTask w.mem a { w.mem a with p_next := none }
  match w.scheduler.p_head with
  | none =>
    { scheduler := { w.scheduler with p_head := some a, p_tail := some a },
      mem := m1 }
  | some _ =>
    match w.scheduler.p_tail with
    | some tl =>
      { scheduler := { w.scheduler with p_tail := some a },
        mem := setTask m1 tl { m1 tl with p_next := some a } }
    | none =>
      { scheduler := { w.scheduler with p_tail := some a }, mem := m1 }

/-- The common write tail of `sched_task_config` (scheduler.c lines
699-711): store the handler, the repeating flag and the interval, and
leave the task in the STOPPED state. -/
def config_write (w1 : World) (a : Nat) (handler : Option Nat)
    (interval_ms : Nat) (rep : Bool) : World :=
  let t := w1.mem a
  let t := { t with p_handler := handler }
  let t := { t with rep := rep }
  let t := task_interval_set t interval_ms
  let t := { t with state := STOPPED }
  { w1 with mem := setTask w1.mem a t }

/-- `sched_task_config` (scheduler.c lines 636-712), with
`SCHED_TASK_BUFF_CLEAR_EN = 0` (the default) so the buffer-clear
branch compiles out.  Returns the C return value and the new world:
NULL task or handler fails; a STOPPED scheduler fails; an UNINIT task
is attached to the queue and then configured; a STOPPED task is
reconfigured in place; every other task state fails. -/
def sched_task_config (w : World) (p_task handler : Option Nat)
    (interval_ms : Nat) (rep : Bool) : Bool × World :=
  match p_task, handler with
  | some a, some _ =>
    if w.scheduler.state = SCHED_STATE_STOPPED then (false, w)
    else if (w.mem a).state = UNINIT then
      (true, config_write (sched_que_attach w a) a handler interval_ms rep)
    else if (w.mem a).state ≠ STOPPED then (false, w)
    else (true, config_write w a handler interval_ms rep)
  | _, _ => (false, w)

/-- `sched_task_start` (scheduler.c lines 714-753). -/
def sched_task_start (now : Nat) (w : World) (p_task : Option Nat) :
    Bool × World :=
  match p_task with
  | none => (false, w)
  | some a =>
    let t := w.mem a
    if t.state = UNINIT then (false, w)
    else
      let step : sched_task_t × scheduler_t :=
        if t.state = STOPPED then
          ({ t with state := ACTIVE }, sched_updated_set w.scheduler)
        else if t.state = STOPPING then
          ({ t with state := EXECUTING }, w.scheduler)
        else (t, w.scheduler)
      let t2 := { step.1 with start_ms := now % M32 }
      (true, { scheduler := step.2, mem := setTask w.mem a t2 })

/-- `sched_task_update` (scheduler.c lines 755-768): store the new
interval, then start the task. -/
def sched_task_update (now : Nat) (w : World) (p_task : Option Nat)
    (interval_ms : Nat) : Bool × World :=
  match p_task with
  | none => (false, w)
  | some a =>
    let w1 :=
      { w with mem := setTask w.mem a (task_interval_set (w.mem a) interval_ms) }
    sched_task_start now w1 (some a)

/-- `sched_task_stop` (scheduler.c lines 810-844). -/
def sched_task_stop (w : World) (p_task : Option Nat) : Bool × World :=
  match p_task with
  | none => (false, w)
  | some a =>
    let t := w.mem a
    if t.state = UNINIT then (false, w)
    else if t.state = ACTIVE then
      (true, { w with
        mem := setTask w.mem a { t with state := STOPPED, allocated := false } })
    else if t.state = EXECUTING then
      (true, { w with mem := setTask w.mem a { t with state := STOPPING } })
    else (true, w)

/-- `sched_task_data` (scheduler.c lines 770-808).  The supplied data
size is a uint8_t parameter, hence the `% M8`.  Byte-buffer contents
live outside the modelled task memory: the memcpy on the buffered
path with a non-null data pointer writes only into the task's own
byte buffer and touches no task record field, so it has no footprint
here.  For an unbuffered task the C code stores the raw (possibly
NULL) data pointer. -/
def sched_task_data (w : World) (p_task p_data : Option Nat)
    (data_size : Nat) : Nat × World :=
  match p_task with
  | none => (0, w)
  | some a =>
    if (w.mem a).state ≠ STOPPED then (0, w)
    else
      let t := { w.mem a with data_size := data_size % M8 }
      if 0 < t.buff_size then
        let t := if t.buff_size < t.data_size then
                   { t with data_size := t.buff_size }
                 else t
        let t := match p_data with
                 | none => { t with data_size := 0 }
                 | some _ => t
        (t.data_size, { w with mem := setTask w.mem a t })
      else
        let t := { t with p_data := p_data }
        (t.data_size, { w with mem := setTask w.mem a t })

/-- The pre-handler step of `task_execute_handler` (scheduler.c lines
476-495): a repeating task moves to EXECUTING and its start time is
refreshed to now before the handler runs; a one-shot task moves to
STOPPING. -/
def task_fire_pre (now : Nat) (t : sched_task_t) : sched_task_t :=
  if t.rep = true then { t with state := EXECUTING, start_ms := now % M32 }
  else { t with state := STOPPING }

/-- The post-handler step of `task_execute_handler` (scheduler.c lines
502-515): a task found EXECUTING moves back to ACTIVE; otherwise the C
code asserts the state is STOPPING, moves the task to STOPPED and
clears its allocated flag. -/
def task_fire_post (t : sched_task_t) : sched_task_t :=
  if t.state = EXECUTING then { t with state := ACTIVE }
  else { t with state := STOPPED, allocated := false }

/-- `task_execute_handler` (scheduler.c lines 472-516).  The handler is
modelled by its effect on the task record (the C handler receives the
task pointer and may mutate the task through the public API). -/
def task_execute_handler (now : Nat) (handler : sched_task_t → sched_task_t)
    (t : sched_task_t) : sched_task_t :=
  task_fire_post (handler (task_fire_pre now t))

/-- A task pool configuration (sched_types.h `sched_task_pool_t`).
`p_data` is the base byte address of the shared buffer and `p_tasks`
the base address of the task array inside the task memory. -/
structure sched_task_pool_t where
  p_data : Nat
  p_tasks : Nat
  buff_size : Nat
  task_cnt : Nat
  initialized : Bool
deriving DecidableEq, Repr

/-- The per-slot body of `sched_task_pool_init`'s loop (scheduler.c
lines 858-869). -/
def pool_slot_init (p : sched_task_pool_t) (t : sched_task_t)
    (index : Nat) : sched_task_t :=
  { t with
    p_data := some (p.p_data + index * p.buff_size)
    buff_size := p.buff_size
    allocated := false
    state := UNINIT }

/-- The memory after `sched_task_pool_init`'s loop has run over the
first `n` slot indices (the C loop runs `index` from 0 while
`index < task_cnt`). -/
def pool_init_mem (p : sched_task_pool_t) (mem : Nat → sched_task_t) :
    Nat → (Nat → sched_task_t)
  | 0 => mem
  | n + 1 =>
    let m := pool_init_mem p mem n
    setTask m (p.p_tasks + n) (pool_slot_init p (m (p.p_tasks + n)) n)

/-- `sched_task_pool_init` (scheduler.c lines 851-872). -/
def sched_task_pool_init (p : sched_task_pool_t)
    (mem : Nat → sched_task_t) : sched_task_pool_t × (Nat → sched_task_t) :=
  ({ p with initialized := true }, pool_init_mem p mem p.task_cnt)

/-- The slot-search do-while loop of `sched_task_alloc` (scheduler.c
lines 896-935), by structural recursion on `rem`, the number of loop
entries the continuation test still admits.  The body runs for slot
index `i` and the test `p_task_cur <= p_task_last` with
`p_task_last = &p_tasks[task_cnt]` re-enters the loop while
`i + 1 <= task_cnt`, so `rem = task_cnt - i` and the loop visits every
index up to and including `task_cnt` itself — one record past the end
of the array. -/
def alloc_search (base : Nat) (mem : Nat → sched_task_t) :
    Nat → Nat → Option Nat × (Nat → sched_task_t)
  | i, rem =>
    if (mem (base + i)).allocated = true then
      match rem with
      | 0 => (none, mem)
      | rem' + 1 => alloc_search base mem (i + 1) rem'
    else
      (some (base + i),
        setTask mem (base + i)
          { mem (base + i) with allocated := true, data_size := 0 })

/-- `sched_task_alloc` (scheduler.c lines 874-940), with pools enabled
(`SCHED_TASK_POOL_EN != 0`, the default).  Returns the allocated task
address (NULL on failure), the pool (whose `initialized` flag the call
may set) and the task memory. -/
def sched_task_alloc (sstate : sched_state_t) (mem : Nat → sched_task_t) :
    Option sched_task_pool_t →
      Option Nat × Option sched_task_pool_t × (Nat → sched_task_t)
  | none => (none, none, mem)
  | some p =>
    if sstate = SCHED_STATE_ACTIVE then
      let pm := if p.initialized = false then sched_task_pool_init p mem
                else (p, mem)
      let r := alloc_search pm.1.p_tasks pm.2 0 pm.1.task_cnt
      (r.1, some pm.1, r.2)
    else (none, some p, mem)

/-- The counting do-while loop of `sched_pool_allocated` (scheduler.c
lines 957-966), by structural recursion on `rem = task_cnt - i` as in
`alloc_search`: `alloc_count` is incremented for every record whose
allocated flag is FALSE, the counter is a uint8_t, and the loop visits
every slot index up to and including `task_cnt`. -/
def pool_count_loop (base : Nat) (mem : Nat → sched_task_t) :
    Nat → Nat → Nat → Nat
  | i, acc, rem =>
    let acc2 := if (mem (base + i)).allocated = true then acc
                else (acc + 1) % M8
    match rem with
    | 0 => acc2
    | rem' + 1 => pool_count_loop base mem (i + 1) acc2 rem'

/-- `sched_pool_allocated` (scheduler.c lines 942-969). -/
def sched_pool_allocated (mem : Nat → sched_task_t) :
    Option sched_task_pool_t → Nat
  | none => 0
  | some p =>
    if p.initialized = false then 0
    else pool_count_loop p.p_tasks mem 0 0 p.task_cnt

/-- `sched_pool_free` (scheduler.c lines 971-978): the uint8_t
difference `task_cnt - sched_pool_allocated(pool)`. -/
def sched_pool_free (mem : Nat → sched_task_t) :
    Option sched_task_pool_t → Nat
  | none => 0
  | some p =>
    (p.task_cnt % M8 + (M8 - sched_pool_allocated mem (some p) % M8)) % M8

/-- The number of pool task records among the pool's `task_cnt` slots
whose allocated flag is true.  This is the quantity the documentation
of `sched_pool_allocated` (sched_helper.h lines 141-148) promises. -/
def pool_spec_allocated (mem : Nat → sched_task_t)
    (p : sched_task_pool_t) : Nat :=
  (List.range p.task_cnt).countP fun i => (mem (p.p_tasks + i)).allocated

/-! Concrete fixtures used to evaluate the embedded code on explicit
inputs (statically zero-initialized task records, small worlds and
small pools). -/

/-- A statically zero-initialized task record, as C static storage
produces it (state UNINIT = 0, all flags clear). -/
def task0 : sched_task_t :=
  { start_ms := 0, interval_ms := 0, p_next := none, p_handler := none,
    p_data := none, buff_size := 0, data_size := 0, rep := false,
    allocated := false, state := UNINIT }

/-- A scheduler that has completed `sched_init`: empty queue, ACTIVE. -/
def sched0 : scheduler_t :=
  { p_head := none, p_tail := none, updated := false,
    state := SCHED_STATE_ACTIVE }

/-- A STOPPED task with a nonzero start and interval. -/
def tStopped : sched_task_t :=
  { task0 with state := STOPPED, start_ms := 7, interval_ms := 3 }

/-- An ACTIVE task started at time 0 with a 10 mS interval. -/
def tActive10 : sched_task_t :=
  { task0 with state := ACTIVE, start_ms := 0, interval_ms := 10 }

/-- An ACTIVE task started 5 ticks before the 32-bit counter wrap,
with a 10 mS interval. -/
def tWrap : sched_task_t :=
  { task0 with state := ACTIVE, start_ms := M32 - 5, interval_ms := 10 }

/-- A world whose every task record is ACTIVE with a 10 mS interval. -/
def wActive : World :=
  { scheduler := sched0, mem := fun _ => tActive10 }

/-- A world in which the scheduler is STOPPING (a stop has been
requested but `sched_start` has not yet finalized it) and the task at
address 0 is STOPPED. -/
def wC3 : World :=
  { scheduler := { p_head := some 0, p_tail := some 0, updated := false,
                   state := SCHED_STATE_STOPPING },
    mem := fun _ => { task0 with state := STOPPED } }

/-- A world whose task records are UNINIT with interval_ms = 5. -/
def wC4 : World :=
  { scheduler := sched0, mem := fun _ => { task0 with interval_ms := 5 } }

/-- A world in which the task at address 1 is ACTIVE while every
other address holds a STOPPED buffered task with stored data (buffer
size 8, data size 3). -/
def wC4b : World :=
  { scheduler := sched0,
    mem := fun x =>
      if x = 1 then { task0 with state := ACTIVE }
      else { task0 with state := STOPPED, buff_size := 8, data_size := 3,
                        p_data := some 50 } }

/-- Task memory in which every record is allocated, so a pool slot
search finds no free record anywhere — not even one past the array. -/
def memAlloc : Nat → sched_task_t := fun _ =>
  { task0 with allocated := true, state := ACTIVE }

/-- Task memory for the pool-counting example: of the two slots of
`pool1` (addresses 100 and 101), exactly slot 0 is allocated; all
other memory, including the record one past the array, is free. -/
def mem1 : Nat → sched_task_t := fun a =>
  if a = 100 then { task0 with allocated := true, state := ACTIVE }
  else task0

/-- An initialized two-task pool whose task array starts at 100. -/
def pool1 : sched_task_pool_t :=
  { p_data := 0, p_tasks := 100, buff_size := 4, task_cnt := 2,
    initialized := true }

/-- Task memory for the allocation example: the single slot of `pool2`
(address 200) is allocated; the record one past the array (address
201) is unallocated garbage. -/
def mem2 : Nat → sched_task_t := fun a =>
  if a = 200 then { task0 with allocated := true, state := ACTIVE }
  else task0

/-- An initialized one-task pool whose task array starts at 200. -/
def pool2 : sched_task_pool_t :=
  { p_data := 0, p_tasks := 200, buff_size := 4, task_cnt := 1,
    initialized := true }

/-! Helper lemmas shared by the claim theorems. -/

/-- `task_interval_set` only writes `interval_ms`: the state field is
preserved. -/
theorem task_interval_set_state (t : sched_task_t) (i : Nat) :
    (task_interval_set t i).state = t.state := by
  unfold task_interval_set; split <;> rfl

/-- `task_interval_set` only writes `interval_ms`: the repeat flag is
preserved. -/
theorem task_interval_set_rep_eq (t : sched_task_t) (i : Nat) :
    (task_interval_set t i).rep = t.rep := by
  unfold task_interval_set; split <;> rfl

/-- On a repeating task, `task_interval_set` always stores an interval
of at least 1 (a zero request is rewritten to 1). -/
theorem task_interval_set_rep_pos (t : sched_task_t) (i : Nat)
    (hr : t.rep = true) : 1 ≤ (task_interval_set t i).interval_ms := by
  unfold task_interval_set
  split
  · simp
  · rename_i hc
    have hi : i ≠ 0 := fun h0 => hc ⟨hr, h0⟩
    simp
    omega

/-- Reading back the address just written by `setTask`. -/
theorem setTask_same (mem : Nat → sched_task_t) (a : Nat)
    (t : sched_task_t) : setTask mem a t a = t := by
  simp [setTask]

/-- The task record produced by `config_write` at the configured
address. -/
theorem config_write_mem (w1 : World) (a : Nat) (hdl : Option Nat)
    (i : Nat) (r : Bool) :
    (config_write w1 a hdl i r).mem a =
      { task_interval_set { w1.mem a with p_handler := hdl, rep := r } i
          with state := STOPPED } := by
  simp [config_write, setTask]

/-- When the slot search comes back empty-handed it has written
nothing: the returned memory is the input memory. -/
theorem alloc_search_none_mem (base : Nat) (mem : Nat → sched_task_t) :
    ∀ rem i, (alloc_search base mem i rem).1 = none →
      (alloc_search base mem i rem).2 = mem := by
  intro rem
  induction rem with
  | zero =>
    intro i h
    by_cases hc : (mem (base + i)).allocated = true
    · simp [alloc_search, hc]
    · simp [alloc_search, hc] at h
  | succ r ih =>
    intro i h
    by_cases hc : (mem (base + i)).allocated = true
    · simp only [alloc_search, hc, if_true] at h ⊢
      exact ih (i + 1) h
    · simp [alloc_search, hc] at h

/-- A slot search starting at an unallocated record succeeds
immediately. -/
theorem alloc_search_free_head (base : Nat) (mem : Nat → sched_task_t)
    (rem : Nat) (hfree : (mem (base + 0)).allocated = false) :
    (alloc_search base mem 0 rem).1 = some (base + 0) := by
  have hfree2 : (mem base).allocated = false := by simpa using hfree
  cases rem <;> simp [alloc_search, hfree2]

/-- Every slot the pool-initialization loop has visited is left
unallocated. -/
theorem pool_init_mem_allocated (p : sched_task_pool_t)
    (mem : Nat → sched_task_t) :
    ∀ n i, i < n →
      ((pool_init_mem p mem n) (p.p_tasks + i)).allocated = false := by
  intro n
  induction n with
  | zero => intro i h; omega
  | succ m ih =>
    intro i h
    by_cases hi : i = m
    · subst hi
      simp [pool_init_mem, setTask_same, pool_slot_init]
    · have h2 : i < m := by omega
      have hne : p.p_tasks + i ≠ p.p_tasks + m := by omega
      simp only [pool_init_mem]
      unfold setTask
      rw [if_neg hne]
      exact ih i h2

/-- A failing `sched_task_alloc` (NULL result) leaves the task memory
unchanged: the only failure paths are a NULL pool, an inactive
scheduler, and an exhausted already-initialized pool (a first-use
initialization of a non-empty pool always leaves slot 0 free, and on
an empty pool the initialization loop writes nothing). -/
theorem sched_task_alloc_none_mem (sst : sched_state_t)
    (mem : Nat → sched_task_t) (pp : Option sched_task_pool_t)
    (h : (sched_task_alloc sst mem pp).1 = none) :
    (sched_task_alloc sst mem pp).2.2 = mem := by
  match pp with
  | none => rfl
  | some p =>
    unfold sched_task_alloc at h ⊢
    by_cases hs : sst = SCHED_STATE_ACTIVE
    · simp only [hs, if_true] at h ⊢
      by_cases hin : p.initialized = false
      · rcases Nat.eq_zero_or_pos p.task_cnt with hz | hpos
        · simp only [hin, if_true, sched_task_pool_init, hz,
            pool_init_mem] at h ⊢
          exact alloc_search_none_mem _ _ 0 0 h
        · exfalso
          have hfree :=
            pool_init_mem_allocated p mem p.task_cnt 0 hpos
          simp only [hin, if_true, sched_task_pool_init] at h
          rw [alloc_search_free_head _ _ _ hfree] at h
          exact Option.noConfusion h
      · simp only [hin, if_false] at h ⊢
        exact alloc_search_none_mem _ _ _ _ h
    · simp [hs]

/-! Claim theorems. -/

/-- C7: for every task in the ACTIVE or EXECUTING state,
`sched_task_expired` returns true exactly when the wrapping 32-bit
difference `now - start_ms` reaches `interval_ms`; a task started at
`2^32 - 5` with interval 10 is unexpired for the first 10 ticks after
start and becomes expired exactly when the wrapped counter reaches 5,
i.e. 10 mS after start, across the counter wrap. -/
theorem C7_expired_wrap (now : Nat) (t : sched_task_t)
    (h : TASK_ACTIVE t = true) :
    (sched_task_expired now (some t) = true ↔
      t.interval_ms ≤ wsub now t.start_ms) ∧
    (∀ d, d < 10 →
      sched_task_expired ((M32 - 5 + d) % M32) (some tWrap) = false) ∧
    sched_task_expired ((M32 - 5 + 10) % M32) (some tWrap) = true ∧
    (M32 - 5 + 10) % M32 = 5 := by
  refine ⟨?_, ?_, ?_, ?_⟩
  · simp [sched_task_expired, h, ge_iff_le]
  · decide
  · decide
  · decide

/-- C7 witness: the expiration predicate evaluated on the concrete
wrap-crossing task at the moment of the wrap. -/
theorem C7_expired_wrap_witness :
    (sched_task_expired 0 (some tWrap) = true ↔
      tWrap.interval_ms ≤ wsub 0 tWrap.start_ms) ∧
    (∀ d, d < 10 →
      sched_task_expired ((M32 - 5 + d) % M32) (some tWrap) = false) ∧
    sched_task_expired ((M32 - 5 + 10) % M32) (some tWrap) = true ∧
    (M32 - 5 + 10) % M32 = 5 :=
  C7_expired_wrap 0 tWrap (by decide)

/-- C8: for every task that is neither ACTIVE nor EXECUTING, and for
the NULL task pointer, `sched_task_remaining_ms` returns SCHED_MS_MAX,
`sched_task_elapsed_ms` returns 0 and `sched_task_expired` returns
false, regardless of the task's times and of the current time. -/
theorem C8_inactive_observations (now : Nat) (t : sched_task_t)
    (h : TASK_ACTIVE t = false) :
    sched_task_remaining_ms now (some t) = SCHED_MS_MAX ∧
    sched_task_elapsed_ms now (some t) = 0 ∧
    sched_task_expired now (some t) = false ∧
    sched_task_remaining_ms now none = SCHED_MS_MAX ∧
    sched_task_elapsed_ms now none = 0 ∧
    sched_task_expired now none = false := by
  refine ⟨?_, ?_, ?_, rfl, rfl, rfl⟩ <;>
    simp [sched_task_remaining_ms, sched_task_elapsed_ms,
      sched_task_expired, h]

/-- C8 witness: the three observation functions evaluated on a
concrete STOPPED task with nonzero times. -/
theorem C8_inactive_observations_witness :
    sched_task_remaining_ms 99 (some tStopped) = SCHED_MS_MAX ∧
    sched_task_elapsed_ms 99 (some tStopped) = 0 ∧
    sched_task_expired 99 (some tStopped) = false ∧
    sched_task_remaining_ms 99 none = SCHED_MS_MAX ∧
    sched_task_elapsed_ms 99 none = 0 ∧
    sched_task_expired 99 none = false :=
  C8_inactive_observations 99 tStopped (by decide)

/-- C9: when the scheduler fires a task, a repeating task is set to
EXECUTING with start_ms refreshed to the current time before the
handler is invoked, a one-shot task is set to STOPPING before the
handler is invoked; after the handler returns, a task found EXECUTING
moves to ACTIVE and a task found STOPPING moves to STOPPED with its
allocated flag cleared; `task_execute_handler` is exactly this
pre-step, handler call, post-step sequence. -/
theorem C9_fire_protocol (now : Nat)
    (handler : sched_task_t → sched_task_t) (t u : sched_task_t) :
    (t.rep = true → task_fire_pre now t =
      { t with state := EXECUTING, start_ms := now % M32 }) ∧
    (t.rep = false → task_fire_pre now t = { t with state := STOPPING }) ∧
    (u.state = EXECUTING → task_fire_post u = { u with state := ACTIVE }) ∧
    (u.state = STOPPING →
      task_fire_post u = { u with state := STOPPED, allocated := false }) ∧
    task_execute_handler now handler t =
      task_fire_post (handler (task_fire_pre now t)) := by
  refine ⟨?_, ?_, ?_, ?_, rfl⟩ <;>
    intro h <;> simp [task_fire_pre, task_fire_post, h]

/-- C9 witness: the firing protocol evaluated for the identity handler
on a concrete repeating task and a concrete STOPPING task. -/
theorem C9_fire_protocol_witness :
    (({ tActive10 with rep := true } : sched_task_t).rep = true →
      task_fire_pre 7 { tActive10 with rep := true } =
        { { tActive10 with rep := true } with
            state := EXECUTING, start_ms := 7 % M32 }) ∧
    (({ tActive10 with rep := true } : sched_task_t).rep = false →
      task_fire_pre 7 { tActive10 with rep := true } =
        { { tActive10 with rep := true } with state := STOPPING }) ∧
    (({ task0 with state := STOPPING } : sched_task_t).state = EXECUTING →
      task_fire_post { task0 with state := STOPPING } =
        { { task0 with state := STOPPING } with state := ACTIVE }) ∧
    (({ task0 with state := STOPPING } : sched_task_t).state = STOPPING →
      task_fire_post { task0 with state := STOPPING } =
        { { task0 with state := STOPPING } with
            state := STOPPED, allocated := false }) ∧
    task_execute_handler 7 id { tActive10 with rep := true } =
      task_fire_post (id (task_fire_pre 7 { tActive10 with rep := true })) :=
  C9_fire_protocol 7 id { tActive10 with rep := true }
    { task0 with state := STOPPING }

/-- C10: for every non-null task in the ACTIVE or EXECUTING state,
`sched_task_start` returns true, leaves the task state unchanged,
re-arms the task by storing the current time into start_ms, and leaves
the scheduler singleton (in particular its updated flag) untouched;
nothing else in the world changes. -/
theorem C10_start_active (now : Nat) (w : World) (a : Nat)
    (h : TASK_ACTIVE (w.mem a) = true) :
    (sched_task_start now w (some a)).1 = true ∧
    (sched_task_start now w (some a)).2.scheduler = w.scheduler ∧
    ((sched_task_start now w (some a)).2.mem a).state = (w.mem a).state ∧
    ((sched_task_start now w (some a)).2.mem a).start_ms = now % M32 ∧
    (sched_task_start now w (some a)).2 =
      { w with
        mem := setTask w.mem a ({ w.mem a with start_ms := now % M32 }) } := by
  have h1 : (w.mem a).state = ACTIVE ∨ (w.mem a).state = EXECUTING := by
    simpa [TASK_ACTIVE] using h
  unfold sched_task_start
  rcases h1 with h1 | h1 <;> simp [h1, setTask]

/-- C10 witness: starting the ACTIVE task at address 0 of a concrete
world at time 42. -/
theorem C10_start_active_witness :
    (sched_task_start 42 wActive (some 0)).1 = true ∧
    (sched_task_start 42 wActive (some 0)).2.scheduler = wActive.scheduler ∧
    ((sched_task_start 42 wActive (some 0)).2.mem 0).state =
      (wActive.mem 0).state ∧
    ((sched_task_start 42 wActive (some 0)).2.mem 0).start_ms = 42 % M32 ∧
    (sched_task_start 42 wActive (some 0)).2 =
      { wActive with
        mem := setTask wActive.mem 0 ({ wActive.mem 0 with start_ms := 42 % M32 }) } :=
  C10_start_active 42 wActive 0 (by decide)

/-- C5 counterexample: an ACTIVE task with interval 10 observed 15 mS
after start (a single clock reading, outside any handler) has
remaining = 0 and elapsed = 15, so remaining + elapsed is 15, which is
not congruent to the interval 10 modulo 2^32; the claimed invariant
fails for expired-but-not-yet-serviced tasks. -/
theorem C5_counterexample :
    TASK_ACTIVE tActive10 = true ∧
    sched_task_remaining_ms 15 (some tActive10) = 0 ∧
    sched_task_elapsed_ms 15 (some tActive10) = 15 ∧
    (sched_task_remaining_ms 15 (some tActive10) +
        sched_task_elapsed_ms 15 (some tActive10)) % M32 ≠
      tActive10.interval_ms % M32 := by
  refine ⟨by decide, by decide, by decide, by decide⟩

/-- C5 amended: for every task in the ACTIVE or EXECUTING state and a
single clock reading, remaining + elapsed equals interval_ms whenever
elapsed has not yet passed interval_ms; once elapsed exceeds
interval_ms, remaining is 0 and the sum equals elapsed. -/
theorem C5_remaining_plus_elapsed (now : Nat) (t : sched_task_t)
    (h : TASK_ACTIVE t = true) :
    (sched_task_elapsed_ms now (some t) ≤ t.interval_ms →
      sched_task_remaining_ms now (some t) +
        sched_task_elapsed_ms now (some t) = t.interval_ms) ∧
    (t.interval_ms < sched_task_elapsed_ms now (some t) →
      sched_task_remaining_ms now (some t) +
        sched_task_elapsed_ms now (some t) =
          sched_task_elapsed_ms now (some t)) := by
  simp only [sched_task_remaining_ms, sched_task_elapsed_ms, h, if_true]
  constructor <;> intro h2 <;> split <;> omega

/-- C5 witness: the amended sum evaluated on a concrete unexpired
observation of an ACTIVE task. -/
theorem C5_remaining_plus_elapsed_witness :
    (sched_task_elapsed_ms 3 (some tActive10) ≤ tActive10.interval_ms →
      sched_task_remaining_ms 3 (some tActive10) +
        sched_task_elapsed_ms 3 (some tActive10) = tActive10.interval_ms) ∧
    (tActive10.interval_ms < sched_task_elapsed_ms 3 (some tActive10) →
      sched_task_remaining_ms 3 (some tActive10) +
        sched_task_elapsed_ms 3 (some tActive10) =
          sched_task_elapsed_ms 3 (some tActive10)) :=
  C5_remaining_plus_elapsed 3 tActive10 (by decide)

/-- C6: after any successful `sched_task_config` with repeat = true,
and after any successful `sched_task_update` of a task whose repeat
flag is true, the task's stored interval_ms is at least 1; a requested
interval of 0 for a repeating task is rewritten to 1. -/
theorem C6_repeating_interval_min (w : World) (a : Nat)
    (hdl : Option Nat) (i now : Nat) :
    ((sched_task_config w (some a) hdl i true).1 = true →
      1 ≤ ((sched_task_config w (some a) hdl i true).2.mem a).interval_ms) ∧
    ((w.mem a).rep = true → (sched_task_update now w (some a) i).1 = true →
      1 ≤ ((sched_task_update now w (some a) i).2.mem a).interval_ms) := by
  constructor
  · intro hs
    match hdl with
    | none => simp [sched_task_config] at hs
    | some hp =>
      unfold sched_task_config at hs ⊢
      by_cases h1 : w.scheduler.state = SCHED_STATE_STOPPED
      · simp [h1] at hs
      · by_cases h2 : (w.mem a).state = UNINIT
        · simp only [h1, h2, if_true, if_false, if_neg, config_write_mem]
          simp [h1, h2, config_write_mem]
          exact task_interval_set_rep_pos _ i rfl
        · by_cases h3 : (w.mem a).state = STOPPED
          · simp [h1, h2, h3, config_write_mem]
            exact task_interval_set_rep_pos _ i rfl
          · simp [h1, h2, h3] at hs
  · intro hr hs
    unfold sched_task_update at hs ⊢
    unfold sched_task_start at hs ⊢
    simp only [setTask_same] at hs ⊢
    rw [task_interval_set_state] at hs ⊢
    by_cases h2 : (w.mem a).state = UNINIT
    · simp [h2] at hs
    · have hpos : 1 ≤ (task_interval_set (w.mem a) i).interval_ms :=
        task_interval_set_rep_pos _ i hr
      by_cases h3 : (w.mem a).state = STOPPED <;>
        by_cases h4 : (w.mem a).state = STOPPING <;>
          simp [h2, h3, h4, setTask_same, hpos]

/-- C6 witness: configuring a repeating task with a requested interval
of 0 in a concrete active world stores interval 1, and updating a
repeating STOPPED task with interval 0 also stores at least 1. -/
theorem C6_repeating_interval_min_witness :
    ((sched_task_config wC4 (some 0) (some 1) 0 true).1 = true →
      1 ≤ ((sched_task_config wC4 (some 0) (some 1) 0 true).2.mem 0).interval_ms) ∧
    ((wC4.mem 0).rep = true → (sched_task_update 5 wC4 (some 0) 0).1 = true →
      1 ≤ ((sched_task_update 5 wC4 (some 0) 0).2.mem 0).interval_ms) :=
  C6_repeating_interval_min wC4 0 (some 1) 0 5

/-- C3 counterexample: in a world whose scheduler is STOPPING (not
ACTIVE), configuring a non-null STOPPED task with a non-null handler
returns true, so "returns true only if the scheduler state is ACTIVE"
is false: the code only rejects a STOPPED scheduler. -/
theorem C3_counterexample :
    wC3.scheduler.state ≠ SCHED_STATE_ACTIVE ∧
    (wC3.mem 0).state = STOPPED ∧
    (sched_task_config wC3 (some 0) (some 1) 5 false).1 = true := by
  refine ⟨by decide, rfl, rfl⟩

/-- C3 amended: `sched_task_config` returns true if and only if the
task is non-null, the handler is non-null, the scheduler state is not
STOPPED (ACTIVE or STOPPING), and the task state is UNINIT or STOPPED;
in every other case it returns false, and on success the task's state
is STOPPED. -/
theorem C3_config_success_iff (w : World) (a : Nat) (hdl : Option Nat)
    (i : Nat) (r : Bool) :
    ((sched_task_config w (some a) hdl i r).1 = true ↔
      (hdl ≠ none ∧ w.scheduler.state ≠ SCHED_STATE_STOPPED ∧
        ((w.mem a).state = UNINIT ∨ (w.mem a).state = STOPPED))) ∧
    ((sched_task_config w (some a) hdl i r).1 = true →
      ((sched_task_config w (some a) hdl i r).2.mem a).state = STOPPED) ∧
    (sched_task_config w none hdl i r).1 = false := by
  refine ⟨?_, ?_, by simp [sched_task_config]⟩
  · match hdl with
    | none => simp [sched_task_config]
    | some hp =>
      unfold sched_task_config
      by_cases h1 : w.scheduler.state = SCHED_STATE_STOPPED
      · simp [h1]
      · by_cases h2 : (w.mem a).state = UNINIT
        · simp [h1, h2]
        · by_cases h3 : (w.mem a).state = STOPPED
          · simp [h1, h2, h3]
          · simp [h1, h2, h3]
  · intro hs
    match hdl with
    | none => simp [sched_task_config] at hs
    | some hp =>
      unfold sched_task_config at hs ⊢
      by_cases h1 : w.scheduler.state = SCHED_STATE_STOPPED
      · simp [h1] at hs
      · by_cases h2 : (w.mem a).state = UNINIT
        · simp [h1, h2, config_write_mem]
        · by_cases h3 : (w.mem a).state = STOPPED
          · simp [h1, h2, h3, config_write_mem]
          · simp [h1, h2, h3] at hs

/-- C3 witness: the success condition evaluated concretely for a
STOPPED task in an ACTIVE-scheduler world. -/
theorem C3_config_success_iff_witness :
    ((sched_task_config wC4 (some 0) (some 1) 5 false).1 = true ↔
      ((some 1 : Option Nat) ≠ none ∧
        wC4.scheduler.state ≠ SCHED_STATE_STOPPED ∧
        ((wC4.mem 0).state = UNINIT ∨ (wC4.mem 0).state = STOPPED))) ∧
    ((sched_task_config wC4 (some 0) (some 1) 5 false).1 = true →
      ((sched_task_config wC4 (some 0) (some 1) 5 false).2.mem 0).state =
        STOPPED) ∧
    (sched_task_config wC4 none (some 1) 5 false).1 = false :=
  C3_config_success_iff wC4 0 (some 1) 5 false

/-- C4 counterexample: on a task in the UNINIT state with stored
interval 5, `sched_task_update` with interval 7 returns false yet
leaves the task's interval_ms rewritten to 7 — a failing public
operation that does change the task. -/
theorem C4_counterexample :
    (wC4.mem 0).state = UNINIT ∧
    (wC4.mem 0).interval_ms = 5 ∧
    (sched_task_update 3 wC4 (some 0) 7).1 = false ∧
    ((sched_task_update 3 wC4 (some 0) 7).2.mem 0).interval_ms = 7 := by
  refine ⟨rfl, rfl, rfl, rfl⟩

/-- C4 amended: every public task operation that fails leaves the
task and scheduler state unchanged — `sched_task_config`,
`sched_task_start`, `sched_task_stop` on any failure,
`sched_task_alloc` whenever it returns NULL, and `sched_task_data`
when the task is null or not STOPPED — with two exceptions forced by
the code: `sched_task_update` stores the interval before delegating
to `sched_task_start`, so on a task in the UNINIT state it returns
false with the task's interval_ms rewritten by `task_interval_set`
and everything else unchanged; and `sched_task_data` on a STOPPED
buffered task with a NULL data pointer returns 0 while still
rewriting the task's stored data_size to 0. -/
theorem C4_failure_frame (now : Nat) (w wd : World) (p hdl pd : Option Nat)
    (a b c i n : Nat) (r : Bool) (sst : sched_state_t)
    (mem : Nat → sched_task_t) (pp : Option sched_task_pool_t) :
    ((sched_task_config w p hdl i r).1 = false →
      (sched_task_config w p hdl i r).2 = w) ∧
    ((sched_task_start now w p).1 = false →
      (sched_task_start now w p).2 = w) ∧
    ((sched_task_stop w p).1 = false → (sched_task_stop w p).2 = w) ∧
    ((sched_task_alloc sst mem pp).1 = none →
      (sched_task_alloc sst mem pp).2.2 = mem) ∧
    ((sched_task_data wd none pd n).1 = 0 ∧
      (sched_task_data wd none pd n).2 = wd) ∧
    ((wd.mem c).state ≠ STOPPED →
      (sched_task_data wd (some c) pd n).1 = 0 ∧
      (sched_task_data wd (some c) pd n).2 = wd) ∧
    ((w.mem a).state = UNINIT →
      (sched_task_update now w (some a) i).1 = false ∧
      (sched_task_update now w (some a) i).2 =
        { w with mem := setTask w.mem a (task_interval_set (w.mem a) i) }) ∧
    ((wd.mem b).state = STOPPED → 0 < (wd.mem b).buff_size →
      (sched_task_data wd (some b) none n).1 = 0 ∧
      (sched_task_data wd (some b) none n).2 =
        { wd with mem := setTask wd.mem b ({ wd.mem b with data_size := 0 }) }) := by
  refine ⟨?_, ?_, ?_, sched_task_alloc_none_mem sst mem pp, ⟨rfl, rfl⟩,
    ?_, ?_, ?_⟩
  · intro hs
    match p, hdl with
    | none, _ => rfl
    | some b, none => rfl
    | some b, some hp =>
      unfold sched_task_config at hs ⊢
      by_cases h1 : w.scheduler.state = SCHED_STATE_STOPPED
      · simp [h1]
      · by_cases h2 : (w.mem b).state = UNINIT
        · simp [h1, h2] at hs
        · by_cases h3 : (w.mem b).state = STOPPED
          · simp [h1, h2, h3] at hs
          · simp [h1, h2, h3]
  · intro hs
    match p with
    | none => rfl
    | some b =>
      unfold sched_task_start at hs ⊢
      by_cases h2 : (w.mem b).state = UNINIT
      · simp [h2]
      · simp [h2] at hs
  · intro hs
    match p with
    | none => rfl
    | some b =>
      unfold sched_task_stop at hs ⊢
      by_cases h2 : (w.mem b).state = UNINIT
      · simp [h2]
      · by_cases h3 : (w.mem b).state = ACTIVE <;>
          by_cases h4 : (w.mem b).state = EXECUTING <;>
            simp [h2, h3, h4] at hs
  · intro hc
    simp [sched_task_data, hc]
  · intro h2
    unfold sched_task_update sched_task_start
    simp only [setTask_same]
    rw [task_interval_set_state]
    simp [h2]
  · intro hst hb
    unfold sched_task_data
    dsimp only
    rw [if_neg (by simp [hst])]
    rw [if_pos hb]
    by_cases hcl : (wd.mem b).buff_size < n % M8
    · rw [if_pos hcl]
      exact ⟨rfl, rfl⟩
    · rw [if_neg hcl]
      exact ⟨rfl, rfl⟩

/-- C4 witness: the failure frame evaluated concretely: null-pointer
config/start/stop on a world of UNINIT tasks, a NULL-returning alloc
on a fully-allocated memory, null-task and wrong-state data calls, the
failing update that rewrites only interval_ms, and the failing data
call on a STOPPED buffered task that rewrites only data_size. -/
theorem C4_failure_frame_witness :
    ((sched_task_config wC4 none (some 1) 7 false).1 = false →
      (sched_task_config wC4 none (some 1) 7 false).2 = wC4) ∧
    ((sched_task_start 3 wC4 none).1 = false →
      (sched_task_start 3 wC4 none).2 = wC4) ∧
    ((sched_task_stop wC4 none).1 = false →
      (sched_task_stop wC4 none).2 = wC4) ∧
    ((sched_task_alloc SCHED_STATE_ACTIVE memAlloc (some pool2)).1 = none →
      (sched_task_alloc SCHED_STATE_ACTIVE memAlloc (some pool2)).2.2 =
        memAlloc) ∧
    ((sched_task_data wC4b none (some 60) 5).1 = 0 ∧
      (sched_task_data wC4b none (some 60) 5).2 = wC4b) ∧
    ((wC4b.mem 1).state ≠ STOPPED →
      (sched_task_data wC4b (some 1) (some 60) 5).1 = 0 ∧
      (sched_task_data wC4b (some 1) (some 60) 5).2 = wC4b) ∧
    ((wC4.mem 0).state = UNINIT →
      (sched_task_update 3 wC4 (some 0) 7).1 = false ∧
      (sched_task_update 3 wC4 (some 0) 7).2 =
        { wC4 with
          mem := setTask wC4.mem 0 (task_interval_set (wC4.mem 0) 7) }) ∧
    ((wC4b.mem 0).state = STOPPED → 0 < (wC4b.mem 0).buff_size →
      (sched_task_data wC4b (some 0) none 5).1 = 0 ∧
      (sched_task_data wC4b (some 0) none 5).2 =
        { wC4b with
          mem := setTask wC4b.mem 0 ({ wC4b.mem 0 with data_size := 0 }) }) :=
  C4_failure_frame 3 wC4 wC4b none (some 1) (some 60) 0 0 1 7 5 false
    SCHED_STATE_ACTIVE memAlloc (some pool2)

/-- C1: on an initialized two-slot pool with exactly one slot
allocated, `sched_pool_allocated` returns 2 — it counts the records
whose allocated flag is FALSE and scans one record past the array —
while the number of records whose allocated flag is true is 1; and
`sched_pool_free` returns 0 while the number of free records is 1.
This contradicts the documented contract (sched_helper.h lines
141-159) and its use in test/POSIX/projects/pool_test. -/
theorem C1_pool_count_bug :
    pool1.task_cnt = 2 ∧
    (mem1 (pool1.p_tasks + 0)).allocated = true ∧
    (mem1 (pool1.p_tasks + 1)).allocated = false ∧
    pool_spec_allocated mem1 pool1 = 1 ∧
    sched_pool_allocated mem1 (some pool1) = 2 ∧
    sched_pool_free mem1 (some pool1) = 0 := by
  refine ⟨rfl, rfl, rfl, by decide, by decide, by decide⟩

/-- C2: on an initialized one-slot pool whose single task record is
allocated, with the scheduler ACTIVE, `sched_task_alloc` does not
return NULL: its do-while slot search (`p_task_cur <= p_task_last`
with `p_task_last = &p_tasks[task_cnt]`) also reads the record one
past the end of the array, finds that out-of-bounds record
unallocated, and returns its address `p_tasks + task_cnt`. -/
theorem C2_alloc_reads_past_end :
    (∀ i, i < pool2.task_cnt → (mem2 (pool2.p_tasks + i)).allocated = true) ∧
    pool2.initialized = true ∧
    (sched_task_alloc SCHED_STATE_ACTIVE mem2 (some pool2)).1 =
      some (pool2.p_tasks + pool2.task_cnt) := by
  refine ⟨by decide, rfl, by decide⟩

end LPTask
